import Mathlib

/-!
# Adaptive partition scaler: shallow embedding

A shallow embedding of the adaptive partition scaler of the matching task-list
subsystem (package `service/matching/tasklist`).  The scaler implementation
file `adaptive_scaler.go` is not part of the available sources; its behaviour
is modelled from the specification (`spec.md`) and pinned, wherever they
speak, by the expectations of `adaptive_scaler_test.go`
(`TestAdaptiveScalerRun`, `TestAdaptiveScalerLifecycle`), which drive the
scaler tick by tick through mocks and a mocked time source.  Go `float64` QPS
values are modelled as rationals, `int64` backlog counts as integers, and
durations/instants as rationals (seconds).

The development first gives the data model and the per-tick algorithm
(policy engine, sustain gate, drain scan, tick assembly), then the concrete
environments of the test scenarios, and finally the theorems about them.
-/

namespace AdaptiveScaler

/-- Modelled from the spec (§3 Data Model): a partition configuration.  Both
partition sets are contiguous prefixes `{0..R-1}` / `{0..W-1}` (the tests
build them with `partitions(n)`), so the configuration is represented by the
two counts: `read = R`, `write = W`. -/
structure PartitionConfig where
  read : Nat
  write : Nat
  deriving DecidableEq

/-- Modelled from the spec (§6): the `TaskListStatus` part of a
`DescribeTaskListResponse`: observed new-tasks-per-second, the backlog count
hint, and optional per-isolation-group QPS metrics. -/
structure TaskListStatus where
  newTasksPerSecond : ℚ
  backlogCountHint : ℤ
  groups : List (String × ℚ)
  deriving DecidableEq

/-- Modelled from the spec (§3, §6): a describe response: the status plus the
partition's own (possibly stale) view of the partition configuration. -/
structure DescribeResponse where
  status : TaskListStatus
  config : PartitionConfig
  deriving DecidableEq

/-- Modelled from the spec (§4.4): the tunables resolved each tick from
dynamic configuration. -/
structure Tunables where
  upscaleRPS : ℚ
  downscaleFactor : ℚ
  upscaleSustained : ℚ
  downscaleSustained : ℚ
  maxPartitions : Nat
  isolationEnabled : Bool
  deriving DecidableEq

/-- Modelled from the spec (§3): the reason attached to a scaling decision. -/
inductive Reason where
  | noOp
  | upscale
  | downscaleWrite
  | downscaleRead
  deriving DecidableEq

/-- Modelled from the spec (§3): a scaling decision: desired read and write
partition counts and the reason. -/
structure Decision where
  read : Nat
  write : Nat
  reason : Reason
  deriving DecidableEq

/-- Modelled from the spec (§3): the hysteresis gate state: the pending
decision, if any, and the instant it became pending. -/
structure GateState where
  pending : Option Decision
  since : ℚ
  deriving DecidableEq

/-- Modelled from the spec (§3): aggregated load for one tick. -/
structure AggregatedLoad where
  totalQPS : ℚ
  perGroupQPS : List (String × ℚ)
  deriving DecidableEq

/-- `⌈x / y⌉` as a natural number: the number of partitions needed for load
`x` at per-partition capacity `y`. -/
def natCeilDiv (x y : ℚ) : Nat := (⌈x / y⌉).toNat

/-- Sum of the values attached to key `k` in an association list. -/
def groupSum (l : List (String × ℚ)) (k : String) : ℚ :=
  ((l.filter (fun p => p.1 = k)).map Prod.snd).sum

/-- Merge an association list of per-group QPS contributions, summing the
contributions of each key. -/
def aggGroups (l : List (String × ℚ)) : List (String × ℚ) :=
  ((l.map Prod.fst).dedup).map (fun k => (k, groupSum l k))

/-- Modelled from the spec (§4.4 Policy Engine), with the downscale target
pinned by the tests `overload but no fluctuation` (QPS 190 at `W = 2` yields
no downscale) and `isolation - aggregate metrics to scale down` (QPS 299 at
`W = 3` downscales to `W = 2`): the write-partition target on the downscale
path is `max 1 ⌈totalQPS / (upscaleRPS × downscaleFactor)⌉`, and a
`DownscaleWrite` is proposed only when that target is strictly below `W`.
Upscale computes `⌈totalQPS / upscaleRPS⌉` (joined, when isolation is
enabled, with the per-group maximum), clamps it by `maxPartitions`, and
proposes it when it exceeds `W`; per the spec invariant (§8) that no admitted
decision shrinks `R` while retired partitions may hold backlog, an upscale
never lowers the read count.  The drain-driven read shrink is handled outside
this function (see `drainScan`), as pinned by the tests.

`desiredCount` is the upscale target: `⌈totalQPS / upscaleRPS⌉`, joined with
the per-group maximum when isolation is enabled. -/
def desiredCount (agg : AggregatedLoad) (t : Tunables) : Nat :=
  max (natCeilDiv agg.totalQPS t.upscaleRPS)
    (if t.isolationEnabled then
      (agg.perGroupQPS.map (fun p => natCeilDiv p.2 t.upscaleRPS)).foldr max 0
    else 0)

/-- The write-partition target of the downscale path:
`max 1 ⌈totalQPS / (upscaleRPS × downscaleFactor)⌉`. -/
def downTarget (agg : AggregatedLoad) (t : Tunables) : Nat :=
  max 1 (natCeilDiv agg.totalQPS (t.upscaleRPS * t.downscaleFactor))

/-- The policy engine (§4.4): upscale when the desired count exceeds `W`,
else downscale writes when the downscale target is below `W`, else no-op.
See `desiredCount` for the provenance of the rules. -/
def calcDecision (cur : PartitionConfig) (agg : AggregatedLoad) (t : Tunables) :
    Decision :=
  if cur.write < desiredCount agg t then
    ⟨max cur.read (min (desiredCount agg t) t.maxPartitions),
      min (desiredCount agg t) t.maxPartitions, Reason.upscale⟩
  else if downTarget agg t < cur.write then
    ⟨cur.read, downTarget agg t, Reason.downscaleWrite⟩
  else ⟨cur.read, cur.write, Reason.noOp⟩

/-- Modelled from the spec (§4.5): the sustain duration applicable to a
decision reason: upscales use the upscale sustain, downscales the downscale
sustain. -/
def sustainOf (t : Tunables) : Reason → ℚ
  | Reason.upscale => t.upscaleSustained
  | _ => t.downscaleSustained

/-- Modelled from the spec (§4.5 Hysteresis / Sustain Gate): feed a candidate
decision through the gate at instant `now`.  Returns the admitted decision
(if any) and the new gate state.  A `NoOp` candidate, or a candidate that
contradicts the pending decision, clears the pending state and admits
nothing; a fresh candidate becomes pending; a candidate that agrees with the
pending decision is admitted, clearing the pending state, once it has been
pending for at least its sustain duration. -/
def gateStep (t : Tunables) (now : ℚ) (g : GateState) (c : Decision) :
    Option Decision × GateState :=
  if c.reason = Reason.noOp then (none, ⟨none, g.since⟩)
  else
    match g.pending with
    | none => (none, ⟨some c, now⟩)
    | some p =>
      if p = c then
        if sustainOf t c.reason ≤ now - g.since then (some c, ⟨none, g.since⟩)
        else (none, g)
      else (none, ⟨none, g.since⟩)

/-- Modelled from the spec (§4.6 Drain Coordinator), with the drained
condition pinned by the test `underload sustained` (partition 9 with zero
backlog but still listing itself among the write partitions is *not*
drained): a retired partition `i` counts as drained when its describe
succeeded, it reports zero backlog, and its self-reported configuration no
longer includes it as a write partition (`write ≤ i`). -/
def isDrained (i : Nat) : Option DescribeResponse → Bool
  | none => false
  | some resp =>
    if resp.status.backlogCountHint = 0 ∧ resp.config.write ≤ i then true
    else false

/-- Modelled from the spec (§4.6) and pinned by the test `underload sustained
then drain` (partitions are probed from `R-1` downwards and the probing stops
at the first partition that is not drained, allowing a partial read shrink):
`drainScan view w r` walks partitions `r-1, r-2, …` down to `w`, consulting
`view`, and returns the new read count together with the list of partitions
probed, in probe order. -/
def drainScan (view : Nat → Option DescribeResponse) (w : Nat) :
    Nat → Nat × List Nat
  | 0 => (0, [])
  | r + 1 =>
    if w ≤ r then
      if isDrained r (view r) then
        let p := drainScan view w r
        (p.1, r :: p.2)
      else (r + 1, [r])
    else (r + 1, [])

/-- One call the scaler makes to its collaborators during a tick: reading the
partition configuration from the manager, the local (partition 0) describe,
a remote describe of a given partition, or an update of the partition
configuration. -/
inductive Call where
  | readConfig
  | localDescribe
  | remoteDescribe (partition : Nat)
  | update (cfg : PartitionConfig)
  deriving DecidableEq

/-- The environment one tick runs against: what the manager's
`TaskListPartitionConfig` returns (`none` when the task list has never been
configured), partition 0's local describe response, and the remote describe
outcome per partition index (`none` models a describe error). -/
structure TickEnv where
  config : Option PartitionConfig
  localResp : DescribeResponse
  remote : Nat → Option DescribeResponse

/-- The result of one tick: the new gate state, the decision admitted by the
gate (if any), the configuration update issued on the decision path (if any),
the configuration update issued by the drain-driven read shrink (if any), and
the full trace of collaborator calls in order. -/
structure TickResult where
  gate : GateState
  admitted : Option Decision
  decideUpdate : Option PartitionConfig
  drainUpdate : Option PartitionConfig
  calls : List Call

/-- The partition configuration a tick works from: the manager's answer, or
`R = W = 1` when the task list has never been configured (§4.2, §4.7). -/
def cfgOf (env : TickEnv) : PartitionConfig := env.config.getD ⟨1, 1⟩

/-- The view of partition `i`'s describe response within a tick: partition 0
is the local response, the others come from the remote client. -/
def tickView (env : TickEnv) (i : Nat) : Option DescribeResponse :=
  if i = 0 then some env.localResp else env.remote i

/-- The manager read, the local describe, and remote describes of the given
partitions: the calls every tick opens with. -/
def baseCalls (l : List Nat) : List Call :=
  [Call.readConfig, Call.localDescribe] ++ l.map Call.remoteDescribe

/-- The opening calls of a non-isolation tick: only the manager read and the
local describe. -/
def localCalls : List Call := baseCalls []

/-- The opening calls of an isolation tick: the manager read, the local
describe, and a remote describe of every partition `1..R-1`. -/
def isoCalls (env : TickEnv) : List Call :=
  baseCalls ((List.range (cfgOf env).read).drop 1)

/-- The describe responses an isolation tick gathers, for partitions
`0..R-1`. -/
def isoResponses (env : TickEnv) : List (Option DescribeResponse) :=
  (List.range (cfgOf env).read).map (tickView env)

/-- Modelled from the spec (§4.7 step 4: isolation mode sums across
partitions; §3): the aggregated load of an isolation tick, assuming all
describes succeeded: the total QPS is the sum of every partition's reported
QPS, and the per-group QPS sums each group across partitions. -/
def isoAgg (env : TickEnv) : AggregatedLoad :=
  ⟨(((isoResponses env).filterMap id).map
      (fun resp => resp.status.newTasksPerSecond)).sum,
    aggGroups (((isoResponses env).filterMap id).map
      (fun resp => resp.status.groups)).flatten⟩

/-- Modelled from the spec (§4.7 step 4) and pinned by the non-isolation
tests (which mock no remote describes for aggregation): with isolation
disabled the local partition-0 self-report is the authoritative total QPS. -/
def localAgg (env : TickEnv) : AggregatedLoad :=
  ⟨env.localResp.status.newTasksPerSecond, []⟩

/-- The decision step of a tick: the candidate from the policy engine, run
through the sustain gate. -/
def decisionStep (t : Tunables) (now : ℚ) (g : GateState)
    (cfg : PartitionConfig) (agg : AggregatedLoad) :
    Option Decision × GateState :=
  gateStep t now g (calcDecision cfg agg t)

/-- The configuration update issued on the decision path, if the gate
admitted a decision. -/
def admittedCfg (t : Tunables) (now : ℚ) (g : GateState)
    (cfg : PartitionConfig) (agg : AggregatedLoad) : Option PartitionConfig :=
  (decisionStep t now g cfg agg).1.map (fun d => ⟨d.read, d.write⟩)

/-- The configuration in force after the decision path: the admitted update
if one was issued, the tick's starting configuration otherwise. -/
def cfgAfterStep (t : Tunables) (now : ℚ) (g : GateState)
    (cfg : PartitionConfig) (agg : AggregatedLoad) : PartitionConfig :=
  (admittedCfg t now g cfg agg).getD cfg

/-- The drain scan a tick runs after the decision path, over the retired
partitions `[W..R-1]` of the configuration then in force. -/
def scanOf (t : Tunables) (now : ℚ) (g : GateState) (env : TickEnv)
    (cfg : PartitionConfig) (agg : AggregatedLoad) : Nat × List Nat :=
  drainScan (tickView env) (cfgAfterStep t now g cfg agg).write
    (cfgAfterStep t now g cfg agg).read

/-- The read-shrink update issued by the drain scan, when the scan found a
drained suffix: collapse the read count to the scan result, keeping the
write count.  Pinned by the tests: this update is issued in the same tick,
without passing through the sustain gate. -/
def drainCfg (t : Tunables) (now : ℚ) (g : GateState) (env : TickEnv)
    (cfg : PartitionConfig) (agg : AggregatedLoad) : Option PartitionConfig :=
  if (scanOf t now g env cfg agg).1 < (cfgAfterStep t now g cfg agg).read then
    some ⟨(scanOf t now g env cfg agg).1, (cfgAfterStep t now g cfg agg).write⟩
  else none

/-- Modelled from the spec (§4.7 steps 5-8 and §4.6): the second half of a
tick, run once the aggregated load is known: compute the candidate decision,
run it through the sustain gate, issue the admitted update (if any), then run
the drain scan against the (possibly updated) configuration and issue the
read-shrink update (if any).  `fresh` is true when the drain scan issues its
own remote describes (isolation disabled); with isolation enabled the scan
reuses the responses already fetched for aggregation. -/
def afterAgg (t : Tunables) (now : ℚ) (g : GateState) (env : TickEnv)
    (cfg : PartitionConfig) (agg : AggregatedLoad) (pre : List Call)
    (fresh : Bool) : TickResult :=
  { gate := (decisionStep t now g cfg agg).2
    admitted := (decisionStep t now g cfg agg).1
    decideUpdate := admittedCfg t now g cfg agg
    drainUpdate := drainCfg t now g env cfg agg
    calls := pre ++
      (((admittedCfg t now g cfg agg).map Call.update).toList ++
        ((if fresh then (scanOf t now g env cfg agg).2.map Call.remoteDescribe
          else []) ++
          ((drainCfg t now g env cfg agg).map Call.update).toList)) }

/-- The result of a tick aborted by an observation error (§4.7 step 8, §7):
the gate's pending decision is cleared and no decision is taken and no
update issued. -/
def errResult (g : GateState) (calls : List Call) : TickResult :=
  { gate := ⟨none, g.since⟩
    admitted := none
    decideUpdate := none
    drainUpdate := none
    calls := calls }

/-- Modelled from the spec (§4.7 Adaptive Scaler Loop): one tick of the
scaler at instant `now`, against environment `env`, from gate state `g`.
Reads the current configuration once and the local describe once.  With
isolation enabled it describes every partition and sums their QPS; any
remote describe failure clears the gate and ends the tick with no update
(§4.7 step 8, §7 ObservationError).  With isolation disabled the local
(partition 0) self-report is the authoritative total QPS. -/
def tick (t : Tunables) (now : ℚ) (env : TickEnv) (g : GateState) :
    TickResult :=
  if t.isolationEnabled then
    if (isoResponses env).any Option.isNone then errResult g (isoCalls env)
    else afterAgg t now g env (cfgOf env) (isoAgg env) (isoCalls env) false
  else afterAgg t now g env (cfgOf env) (localAgg env) localCalls true

/-- Project a call to the configuration it passes to
`updateTaskListPartitionConfig`, when it is such a call. -/
def callUpdate : Call → Option PartitionConfig
  | Call.update u => some u
  | _ => none

/-- The configurations passed to `updateTaskListPartitionConfig` during a
tick, in call order, read off the tick's call trace. -/
def updatesOf (res : TickResult) : List PartitionConfig :=
  res.calls.filterMap callUpdate

/-- Run the scaler for a list of tick environments, the first tick at
instant `now` and each subsequent tick `step` later, threading the gate
state.  Returns the per-tick results in order. -/
def runScaler (t : Tunables) : ℚ → ℚ → GateState → List TickEnv →
    List TickResult
  | _, _, _, [] => []
  | now, step, g, e :: es =>
    let res := tick t now e g
    res :: runScaler t (now + step) step res.gate es

/-- The gate state at the start: nothing pending. -/
def gateInit : GateState := ⟨none, 0⟩

/-- Well-formedness of the manager's answer to `TaskListPartitionConfig`:
absent, or satisfying the configuration invariant `1 ≤ W ≤ R` (§3). -/
def wfConfigOpt : Option PartitionConfig → Bool
  | none => true
  | some c => decide (1 ≤ c.write ∧ c.write ≤ c.read)

/-! ## Lifecycle

Modelled from the spec (§3 Scaler State, §4.7 Lifecycle, §7 LifecycleError):
status moves one way through Initialized → Started → Stopped; `Start` spawns
the background tick task, `Stop` signals it and waits for its exit; both are
idempotent no-ops outside their triggering status. -/

/-- The scaler's lifecycle status. -/
inductive ScalerStatus where
  | initialized
  | started
  | stopped
  deriving DecidableEq

/-- The scaler's lifecycle state: its status and whether the background tick
task is running. -/
structure LifecycleState where
  status : ScalerStatus
  taskRunning : Bool
  deriving DecidableEq

/-- The lifecycle state a fresh scaler is constructed in. -/
def lifecycleInit : LifecycleState := ⟨ScalerStatus.initialized, false⟩

/-- Modelled from the spec (§4.7): `Start` atomically transitions
Initialized → Started and spawns the background tick task; in any other
status it is a no-op. -/
def scalerStart (s : LifecycleState) : LifecycleState :=
  if s.status = ScalerStatus.initialized then ⟨ScalerStatus.started, true⟩
  else s

/-- Modelled from the spec (§4.7): `Stop` atomically transitions
Started → Stopped, signals the background task to exit and waits for it; in
any other status it is a no-op. -/
def scalerStop (s : LifecycleState) : LifecycleState :=
  if s.status = ScalerStatus.started then ⟨ScalerStatus.stopped, false⟩
  else s

/-- A lifecycle call. -/
inductive LifecycleOp where
  | start
  | stop
  deriving DecidableEq

/-- Apply one lifecycle call. -/
def applyOp : LifecycleOp → LifecycleState → LifecycleState
  | LifecycleOp.start, s => scalerStart s
  | LifecycleOp.stop, s => scalerStop s

/-- Apply a sequence of lifecycle calls, left to right. -/
def applyOps (ops : List LifecycleOp) (s : LifecycleState) : LifecycleState :=
  ops.foldl (fun s o => applyOp o s) s

/-! ## The test scenarios

The environments below transcribe the mock setups of `TestAdaptiveScalerRun`
one for one: the tunables set through the dynamic config
(`upscaleRPS = 200`, `downscaleFactor = 0.75`, both sustain durations 1s),
the mocked `TaskListPartitionConfig` answers, and the mocked describe
responses (`withPartitionsAndQPS`, `withPartitionsAndBacklog`).  The mocked
time source advances `1s + 1ms` between ticks. -/

/-- The tunables of `TestAdaptiveScalerRun` with isolation disabled. -/
def testTunables : Tunables := ⟨200, 3 / 4, 1, 1, 100, false⟩

/-- The tunables of `TestAdaptiveScalerRun` with isolation enabled. -/
def isoTunables : Tunables := ⟨200, 3 / 4, 1, 1, 100, true⟩

/-- The time the mocked time source advances between ticks: `1s + 1ms`. -/
def tickStep : ℚ := 1 + 1 / 1000

/-- The test helper `withPartitionsAndQPS`: a response reporting `q` new
tasks per second, zero backlog, and `n` read and write partitions. -/
def respQPS (n : Nat) (q : ℚ) : DescribeResponse := ⟨⟨q, 0, []⟩, ⟨n, n⟩⟩

/-- The test helper `withPartitionsAndBacklog`: a response reporting zero
QPS, backlog `b`, `nr` read partitions and `nw` write partitions. -/
def respBacklog (nr nw : Nat) (b : ℤ) : DescribeResponse :=
  ⟨⟨0, b, []⟩, ⟨nr, nw⟩⟩

/-- Scenario `overload sustained`: null configuration, partition 0 reports
QPS 300. -/
def envOverload : TickEnv := ⟨none, respQPS 1 300, fun _ => none⟩

/-- Scenario `overload fluctuate`, the calm ticks: null configuration,
partition 0 reports QPS 100. -/
def envCalm : TickEnv := ⟨none, respQPS 1 100, fun _ => none⟩

/-- Scenario `underload sustained`, ticks 1 and 2: configuration
`R = W = 10`, all load gone; the drain probe of partition 9 answers with
zero backlog but a self-view that still lists 10 write partitions (it has
not observed the update yet). -/
def envUnderload : TickEnv :=
  ⟨some ⟨10, 10⟩, respQPS 10 0,
    fun i => if i = 9 then some (respQPS 10 0) else none⟩

/-- Scenario `underload sustained then drain`, tick 3: configuration
`R = 10, W = 1`; partitions 5..9 report zero backlog and a self-view of one
write partition, partition 4 still reports backlog 1. -/
def envDrain : TickEnv :=
  ⟨some ⟨10, 1⟩, respBacklog 10 1 0,
    fun i =>
      if i = 4 then some (respBacklog 10 1 1)
      else if 5 ≤ i ∧ i ≤ 9 then some (respBacklog 10 1 0)
      else none⟩

/-- A variant of `envUnderload` in which partition 9's answer no longer
lists it as a write partition (self-view `W = 1`), backlog still zero. -/
def envUnderloadAcked : TickEnv :=
  ⟨some ⟨10, 10⟩, respQPS 10 0,
    fun i => if i = 9 then some (respBacklog 10 1 0) else none⟩

/-- Scenario `overload but no fluctuation`, ticks 1 and 2: null
configuration, partition 0 reports QPS 210. -/
def envMildOverload : TickEnv := ⟨none, respQPS 1 210, fun _ => none⟩

/-- Scenario `overload but no fluctuation`, ticks 3 and 4: configuration
`R = W = 2`, partition 0 reports QPS 190. -/
def envMildUnderload : TickEnv :=
  ⟨some ⟨2, 2⟩, respQPS 2 190, fun _ => none⟩

/-- Scenario `isolation - aggregate metrics to scale up`: configuration
`R = W = 2`; partition 0 reports QPS 1, partition 1 reports QPS 400. -/
def envIsoUp : TickEnv :=
  ⟨some ⟨2, 2⟩, respQPS 2 1,
    fun i => if i = 1 then some (respQPS 2 400) else none⟩

/-- Scenario `isolation - aggregate metrics to scale down`, ticks 1 and 2:
configuration `R = W = 3`; partitions report QPS 200, 49 and 50. -/
def envIsoDown : TickEnv :=
  ⟨some ⟨3, 3⟩, respQPS 3 200,
    fun i =>
      if i = 1 then some (respQPS 3 49)
      else if i = 2 then some (respQPS 3 50)
      else none⟩

/-- Scenario `isolation - aggregate metrics to scale down`, tick 3:
configuration `R = 3, W = 2`; partitions 0 and 1 report QPS 200 and 99,
partition 2 reports zero backlog and a self-view of two write partitions. -/
def envIsoDrain : TickEnv :=
  ⟨some ⟨3, 2⟩, respQPS 2 200,
    fun i =>
      if i = 1 then some (respQPS 2 99)
      else if i = 2 then some (respBacklog 3 2 0)
      else none⟩

/-- Scenario `isolation - error calling DescribeTaskList results in no-op`,
tick 1: configuration `R = W = 3`, zero load, partition 2's describe fails
(`context.DeadlineExceeded`). -/
def envIsoErr : TickEnv :=
  ⟨some ⟨3, 3⟩, respQPS 3 0,
    fun i => if i = 1 then some (respQPS 3 0) else none⟩

/-- Scenario `isolation - error ...`, ticks 2 and 3: all describes succeed,
zero load everywhere. -/
def envIsoOk : TickEnv :=
  ⟨some ⟨3, 3⟩, respQPS 3 0,
    fun i => if i = 1 ∨ i = 2 then some (respQPS 3 0) else none⟩

/-- The three ticks of `underload sustained then drain`. -/
def underloadRun : List TickResult :=
  runScaler testTunables 0 tickStep gateInit [envUnderload, envUnderload, envDrain]

/-- The four ticks of `overload but no fluctuation`. -/
def mildRun : List TickResult :=
  runScaler testTunables 0 tickStep gateInit
    [envMildOverload, envMildOverload, envMildUnderload, envMildUnderload]

/-- The two ticks of `isolation - aggregate metrics to scale up`. -/
def isoUpRun : List TickResult :=
  runScaler isoTunables 0 tickStep gateInit [envIsoUp, envIsoUp]

/-- The three ticks of `isolation - error calling DescribeTaskList results
in no-op`. -/
def isoErrRun : List TickResult :=
  runScaler isoTunables 0 tickStep gateInit [envIsoErr, envIsoOk, envIsoOk]

/-- The gate state after the first `underload sustained` tick: a pending
`DownscaleWrite` to `R = 10, W = 1`, pending since instant 0. -/
def gateUnderload : GateState :=
  ⟨some ⟨10, 1, Reason.downscaleWrite⟩, 0⟩



/-! ## Structural lemmas about the scan, the gate and the policy engine -/

/-- The drain scan never raises the read count. -/
theorem drainScan_fst_le (view : Nat → Option DescribeResponse) (w : Nat) :
    ∀ r, (drainScan view w r).1 ≤ r := by
  intro r
  induction r with
  | zero => simp [drainScan]
  | succ n ih =>
    simp only [drainScan]
    split
    · split
      · exact le_trans ih (Nat.le_succ n)
      · exact le_refl _
    · exact le_refl _

/-- The drain scan never lowers the read count below the write count. -/
theorem drainScan_fst_ge (view : Nat → Option DescribeResponse) (w : Nat) :
    ∀ r, w ≤ r → w ≤ (drainScan view w r).1 := by
  intro r
  induction r with
  | zero => intro h; simpa [drainScan] using h
  | succ n ih =>
    intro h
    simp only [drainScan]
    split
    · split
      · exact ih (by assumption)
      · exact h
    · exact h

/-- Every partition the drain scan drops from the read set was observed
drained. -/
theorem drainScan_drained (view : Nat → Option DescribeResponse) (w : Nat) :
    ∀ r i, (drainScan view w r).1 ≤ i → i < r → isDrained i (view i) = true := by
  intro r
  induction r with
  | zero => intro i _ hi; exact absurd hi (Nat.not_lt_zero i)
  | succ n ih =>
    intro i hle hlt
    simp only [drainScan] at hle
    by_cases hw : w ≤ n
    · rw [if_pos hw] at hle
      by_cases hd : isDrained n (view n) = true
      · rw [if_pos hd] at hle
        rcases Nat.lt_succ_iff_lt_or_eq.mp hlt with h | h
        · exact ih i hle h
        · subst h; exact hd
      · rw [if_neg hd] at hle
        exact absurd (Nat.lt_of_lt_of_le hlt hle) (Nat.lt_irrefl _)
    · rw [if_neg hw] at hle
      exact absurd (Nat.lt_of_lt_of_le hlt hle) (Nat.lt_irrefl _)

/-- The gate admits a decision only when it equals the candidate, was the
pending decision, and has been pending for at least its sustain duration. -/
theorem gateStep_some (t : Tunables) (now : ℚ) (g : GateState) (c d : Decision)
    (h : (gateStep t now g c).1 = some d) :
    d = c ∧ g.pending = some c ∧ sustainOf t c.reason ≤ now - g.since := by
  unfold gateStep at h
  split at h
  · exact absurd h (by simp)
  · split at h
    · exact absurd h (by simp)
    · next p hp =>
      split at h
      · next hpc =>
        split at h
        · next hsus =>
          exact ⟨(Option.some_inj.mp h).symm, by rw [hp, hpc], hsus⟩
        · exact absurd h (by simp)
      · exact absurd h (by simp)

/-- The policy engine never proposes lowering the read count. -/
theorem calcDecision_read_ge (cfg : PartitionConfig) (agg : AggregatedLoad)
    (t : Tunables) : cfg.read ≤ (calcDecision cfg agg t).read := by
  unfold calcDecision
  split
  · exact Nat.le_max_left _ _
  · split
    · exact Nat.le_refl _
    · exact Nat.le_refl _

/-- From a well-formed configuration, the policy engine's proposal is
well-formed: `1 ≤ W ≤ R` (needs at least one partition allowed). -/
theorem calcDecision_wf (cfg : PartitionConfig) (agg : AggregatedLoad)
    (t : Tunables) (h1 : 1 ≤ cfg.write) (h2 : cfg.write ≤ cfg.read)
    (hm : 1 ≤ t.maxPartitions) :
    1 ≤ (calcDecision cfg agg t).write ∧
      (calcDecision cfg agg t).write ≤ (calcDecision cfg agg t).read := by
  unfold calcDecision
  split
  · next hlt =>
    exact ⟨le_min (le_trans h1 (le_of_lt hlt)) hm, Nat.le_max_right _ _⟩
  · split
    · next hlt =>
      exact ⟨Nat.le_max_left _ _, le_trans (le_of_lt hlt) h2⟩
    · exact ⟨h1, h2⟩


/-! ## The shape of a tick's trace -/

/-- A tick is either aborted by an isolation observation error, or runs the
decision-and-drain pipeline on the isolation aggregate or on the local
aggregate. -/
theorem tick_shape (t : Tunables) (now : ℚ) (env : TickEnv) (g : GateState) :
    tick t now env g = errResult g (isoCalls env) ∨
      tick t now env g =
        afterAgg t now g env (cfgOf env) (isoAgg env) (isoCalls env) false ∨
      tick t now env g =
        afterAgg t now g env (cfgOf env) (localAgg env) localCalls true := by
  unfold tick
  split
  · split
    · exact Or.inl rfl
    · exact Or.inr (Or.inl rfl)
  · exact Or.inr (Or.inr rfl)

/-- Remote describes contribute no update calls. -/
theorem filterMap_callUpdate_remote (l : List Nat) :
    (l.map Call.remoteDescribe).filterMap callUpdate = [] := by
  induction l with
  | nil => rfl
  | cons a l ih => simp [callUpdate, ih]

/-- The opening calls of a tick contribute no update calls. -/
theorem filterMap_callUpdate_base (l : List Nat) :
    (baseCalls l).filterMap callUpdate = [] := by
  simp only [baseCalls, List.filterMap_append]
  rw [filterMap_callUpdate_remote l]
  rfl

/-- An optional update call contributes exactly its configuration. -/
theorem filterMap_callUpdate_opt (o : Option PartitionConfig) :
    ((o.map Call.update).toList).filterMap callUpdate = o.toList := by
  cases o <;> rfl

/-- The updates a tick issues are exactly its decision-path update followed
by its drain-path update. -/
theorem updatesOf_afterAgg (t : Tunables) (now : ℚ) (g : GateState)
    (env : TickEnv) (cfg : PartitionConfig) (agg : AggregatedLoad)
    (l : List Nat) (fresh : Bool) :
    updatesOf (afterAgg t now g env cfg agg (baseCalls l) fresh) =
      (admittedCfg t now g cfg agg).toList ++
        (drainCfg t now g env cfg agg).toList := by
  unfold updatesOf afterAgg
  simp only [List.filterMap_append, filterMap_callUpdate_base,
    filterMap_callUpdate_opt, List.nil_append]
  congr 1
  cases fresh
  · simp
  · simpa using filterMap_callUpdate_remote (scanOf t now g env cfg agg).2

/-- The updates of a tick, read off its trace, are its decision-path update
followed by its drain-path update. -/
theorem updatesOf_tick (t : Tunables) (now : ℚ) (env : TickEnv)
    (g : GateState) :
    updatesOf (tick t now env g) =
      ((tick t now env g).decideUpdate).toList ++
        ((tick t now env g).drainUpdate).toList := by
  rcases tick_shape t now env g with h | h | h <;> rw [h]
  · exact filterMap_callUpdate_base ((List.range (cfgOf env).read).drop 1)
  · unfold isoCalls
    rw [updatesOf_afterAgg]
    rfl
  · unfold localCalls
    rw [updatesOf_afterAgg]
    rfl


/-! ## Invariants of the decision and drain paths -/

/-- A decision-path update is the gate-admitted policy decision. -/
theorem admittedCfg_some (t : Tunables) (now : ℚ) (g : GateState)
    (cfg : PartitionConfig) (agg : AggregatedLoad) (u : PartitionConfig)
    (h : admittedCfg t now g cfg agg = some u) :
    u = ⟨(calcDecision cfg agg t).read, (calcDecision cfg agg t).write⟩ ∧
      g.pending = some (calcDecision cfg agg t) ∧
      sustainOf t (calcDecision cfg agg t).reason ≤ now - g.since := by
  unfold admittedCfg at h
  cases hs : (decisionStep t now g cfg agg).1 with
  | none => rw [hs] at h; cases h
  | some d =>
    rw [hs] at h
    obtain ⟨hdc, hp, hsus⟩ := gateStep_some t now g _ d hs
    subst hdc
    exact ⟨(Option.some_inj.mp h).symm, hp, hsus⟩

/-- The configuration in force after the decision path never has a smaller
read count than the tick's starting configuration. -/
theorem cfgAfterStep_read_ge (t : Tunables) (now : ℚ) (g : GateState)
    (cfg : PartitionConfig) (agg : AggregatedLoad) :
    cfg.read ≤ (cfgAfterStep t now g cfg agg).read := by
  unfold cfgAfterStep
  cases h : admittedCfg t now g cfg agg with
  | none => exact Nat.le_refl _
  | some u =>
    obtain ⟨hu, -, -⟩ := admittedCfg_some t now g cfg agg u h
    subst hu
    exact calcDecision_read_ge cfg agg t

/-- The configuration in force after the decision path is well-formed
whenever the starting configuration is. -/
theorem cfgAfterStep_wf (t : Tunables) (now : ℚ) (g : GateState)
    (cfg : PartitionConfig) (agg : AggregatedLoad) (h1 : 1 ≤ cfg.write)
    (h2 : cfg.write ≤ cfg.read) (hm : 1 ≤ t.maxPartitions) :
    1 ≤ (cfgAfterStep t now g cfg agg).write ∧
      (cfgAfterStep t now g cfg agg).write ≤
        (cfgAfterStep t now g cfg agg).read := by
  unfold cfgAfterStep
  cases h : admittedCfg t now g cfg agg with
  | none => exact ⟨h1, h2⟩
  | some u =>
    obtain ⟨hu, -, -⟩ := admittedCfg_some t now g cfg agg u h
    subst hu
    exact calcDecision_wf cfg agg t h1 h2 hm

/-- A drain-path update shrinks the read count of the configuration in
force, keeps its write count, and its read count is the scan result. -/
theorem drainCfg_some (t : Tunables) (now : ℚ) (g : GateState) (env : TickEnv)
    (cfg : PartitionConfig) (agg : AggregatedLoad) (u : PartitionConfig)
    (h : drainCfg t now g env cfg agg = some u) :
    u.read = (scanOf t now g env cfg agg).1 ∧
      u.write = (cfgAfterStep t now g cfg agg).write ∧
      u.read < (cfgAfterStep t now g cfg agg).read := by
  unfold drainCfg at h
  split at h
  · next hlt =>
    cases h
    exact ⟨rfl, rfl, hlt⟩
  · cases h

/-- Every update a tick issues satisfies the configuration invariant
`1 ≤ W ≤ R`, given a well-formed starting configuration. -/
theorem afterAgg_updates_wf (t : Tunables) (now : ℚ) (g : GateState)
    (env : TickEnv) (cfg : PartitionConfig) (agg : AggregatedLoad)
    (h1 : 1 ≤ cfg.write) (h2 : cfg.write ≤ cfg.read)
    (hm : 1 ≤ t.maxPartitions) (u : PartitionConfig)
    (hu : u ∈ (admittedCfg t now g cfg agg).toList ++
      (drainCfg t now g env cfg agg).toList) :
    1 ≤ u.write ∧ u.write ≤ u.read := by
  rcases List.mem_append.mp hu with hmem | hmem
  · rw [Option.mem_toList, Option.mem_def] at hmem
    obtain ⟨hue, -, -⟩ := admittedCfg_some t now g cfg agg u hmem
    subst hue
    exact calcDecision_wf cfg agg t h1 h2 hm
  · rw [Option.mem_toList, Option.mem_def] at hmem
    obtain ⟨hr, hw, -⟩ := drainCfg_some t now g env cfg agg u hmem
    obtain ⟨hw1, hwr⟩ := cfgAfterStep_wf t now g cfg agg h1 h2 hm
    refine ⟨by rw [hw]; exact hw1, ?_⟩
    rw [hw, hr]
    exact drainScan_fst_ge (tickView env) _ _ hwr

/-- Every update a tick issues that shrinks the read count drops only
partitions observed drained this tick, and keeps at least the write
partitions. -/
theorem afterAgg_read_shrink (t : Tunables) (now : ℚ) (g : GateState)
    (env : TickEnv) (cfg : PartitionConfig) (agg : AggregatedLoad)
    (h1 : 1 ≤ cfg.write) (h2 : cfg.write ≤ cfg.read)
    (hm : 1 ≤ t.maxPartitions) (u : PartitionConfig)
    (hu : u ∈ (admittedCfg t now g cfg agg).toList ++
      (drainCfg t now g env cfg agg).toList)
    (hshrink : u.read < cfg.read) :
    u.write ≤ u.read ∧
      ∀ i, u.read ≤ i → i < cfg.read → isDrained i (tickView env i) = true := by
  rcases List.mem_append.mp hu with hmem | hmem
  · rw [Option.mem_toList, Option.mem_def] at hmem
    obtain ⟨hue, -, -⟩ := admittedCfg_some t now g cfg agg u hmem
    exact absurd hshrink (by rw [hue]; exact Nat.not_lt.mpr (calcDecision_read_ge cfg agg t))
  · rw [Option.mem_toList, Option.mem_def] at hmem
    obtain ⟨hr, hw, -⟩ := drainCfg_some t now g env cfg agg u hmem
    obtain ⟨hw1, hwr⟩ := cfgAfterStep_wf t now g cfg agg h1 h2 hm
    constructor
    · rw [hw, hr]
      exact drainScan_fst_ge (tickView env) _ _ hwr
    · intro i hge hlt
      refine drainScan_drained (tickView env) _ _ i (by rw [hr] at hge; exact hge) ?_
      exact Nat.lt_of_lt_of_le hlt (cfgAfterStep_read_ge t now g cfg agg)


/-! ## Call-count lemmas -/

/-- A call that is not a remote describe does not occur among mapped remote
describes. -/
theorem notMem_map_remote (l : List Nat) (c : Call)
    (hc : ∀ i, c ≠ Call.remoteDescribe i) : c ∉ l.map Call.remoteDescribe := by
  intro hmem
  rcases List.mem_map.mp hmem with ⟨i, -, hi⟩
  exact hc i hi.symm

/-- A call that is not an update does not occur in an optional update
call. -/
theorem notMem_opt_update (o : Option PartitionConfig) (c : Call)
    (hc : ∀ u, c ≠ Call.update u) : c ∉ ((o.map Call.update).toList) := by
  intro hmem
  cases o with
  | none => simp at hmem
  | some u =>
    simp only [Option.map, Option.toList, List.mem_singleton] at hmem
    exact hc u hmem

/-- Counting a non-remote-describe call in the opening calls of a tick
reduces to counting it in the two fixed opening calls. -/
theorem count_base (l : List Nat) (c : Call)
    (hc : ∀ i, c ≠ Call.remoteDescribe i) :
    (baseCalls l).count c = ([Call.readConfig, Call.localDescribe]).count c := by
  unfold baseCalls
  rw [List.count_append, List.count_eq_zero.mpr (notMem_map_remote l c hc),
    Nat.add_zero]

/-- The decision-and-drain pipeline adds only remote describes and updates
to the trace. -/
theorem count_afterAgg (t : Tunables) (now : ℚ) (g : GateState)
    (env : TickEnv) (cfg : PartitionConfig) (agg : AggregatedLoad)
    (l : List Nat) (fresh : Bool) (c : Call)
    (hc1 : ∀ i, c ≠ Call.remoteDescribe i) (hc2 : ∀ u, c ≠ Call.update u) :
    (afterAgg t now g env cfg agg (baseCalls l) fresh).calls.count c =
      ([Call.readConfig, Call.localDescribe]).count c := by
  have hB : (if fresh then
      (scanOf t now g env cfg agg).2.map Call.remoteDescribe else
      ([] : List Call)).count c = 0 := by
    cases fresh
    · rfl
    · exact List.count_eq_zero.mpr (notMem_map_remote _ c hc1)
  simp only [afterAgg]
  rw [List.count_append, List.count_append, List.count_append,
    List.count_eq_zero.mpr (notMem_opt_update _ c hc2), hB,
    List.count_eq_zero.mpr (notMem_opt_update _ c hc2)]
  rw [count_base l c hc1]
  omega

/-- In every tick, a call that is neither a remote describe nor an update
occurs exactly as often as in the two fixed opening calls. -/
theorem tick_count_core (t : Tunables) (now : ℚ) (env : TickEnv)
    (g : GateState) (c : Call) (hc1 : ∀ i, c ≠ Call.remoteDescribe i)
    (hc2 : ∀ u, c ≠ Call.update u) :
    (tick t now env g).calls.count c =
      ([Call.readConfig, Call.localDescribe]).count c := by
  rcases tick_shape t now env g with h | h | h <;> rw [h]
  · exact count_base _ c hc1
  · exact count_afterAgg t now g env (cfgOf env) (isoAgg env) _ false c hc1 hc2
  · exact count_afterAgg t now g env (cfgOf env) (localAgg env) [] true c hc1 hc2


/-- A well-formed manager answer yields a well-formed tick configuration,
also when the answer is absent (the `R = W = 1` default). -/
theorem wfConfigOpt_spec (env : TickEnv) (h : wfConfigOpt env.config = true) :
    1 ≤ (cfgOf env).write ∧ (cfgOf env).write ≤ (cfgOf env).read := by
  unfold cfgOf
  cases hc : env.config with
  | none => exact ⟨Nat.le_refl 1, Nat.le_refl 1⟩
  | some c =>
    unfold wfConfigOpt at h
    rw [hc] at h
    simpa using of_decide_eq_true h

/-! ## Lifecycle lemmas -/

/-- The lifecycle invariant: the background task runs only in the Started
status.  It is preserved by every lifecycle call. -/
theorem applyOp_inv (o : LifecycleOp) (s : LifecycleState)
    (h : s.taskRunning = true → s.status = ScalerStatus.started) :
    (applyOp o s).taskRunning = true →
      (applyOp o s).status = ScalerStatus.started := by
  cases o
  · show (scalerStart s).taskRunning = true →
      (scalerStart s).status = ScalerStatus.started
    unfold scalerStart
    by_cases hs : s.status = ScalerStatus.initialized
    · rw [if_pos hs]; intro; rfl
    · rw [if_neg hs]; exact h
  · show (scalerStop s).taskRunning = true →
      (scalerStop s).status = ScalerStatus.started
    unfold scalerStop
    by_cases hs : s.status = ScalerStatus.started
    · rw [if_pos hs]; intro hc; cases hc
    · rw [if_neg hs]; exact h

/-- The lifecycle invariant holds after any call sequence from the initial
state. -/
theorem applyOps_inv (ops : List LifecycleOp) :
    ∀ s : LifecycleState,
      (s.taskRunning = true → s.status = ScalerStatus.started) →
      ((applyOps ops s).taskRunning = true →
        (applyOps ops s).status = ScalerStatus.started) := by
  induction ops with
  | nil => intro s h; exact h
  | cons o ops ih =>
    intro s h
    exact ih (applyOp o s) (applyOp_inv o s h)

/-- Stopping from any state satisfying the lifecycle invariant leaves no
background task running. -/
theorem scalerStop_not_running (s : LifecycleState)
    (hinv : s.taskRunning = true → s.status = ScalerStatus.started) :
    (scalerStop s).taskRunning = false := by
  unfold scalerStop
  by_cases h : s.status = ScalerStatus.started
  · rw [if_pos h]
  · rw [if_neg h]
    cases hr : s.taskRunning
    · rfl
    · exact absurd (hinv hr) h


/-! ## Claims

The concrete scenario computations below evaluate the model inside `decide`;
the arithmetic of `ℚ` must be unfolded for that, so the four `Rat`
operations that the library seals are made semireducible for the remainder
of the development. -/

attribute [local semireducible] Rat.add Rat.mul Rat.inv Rat.sub Rat.ofScientific

/-- **C1** (counterexample).  The claim asserts that while any partition in
`[W..R-1]` reports nonzero backlog, no update reducing `R` is issued and the
read set stays unchanged.  In the `underload sustained then drain` scenario,
tick 3 starts from `R = 10, W = 1` with partition 4 reporting backlog 1, yet
the scaler issues `update(R = 5, W = 1)`: the read set shrinks from 10 to 5
partitions, exactly as the test at lines 211-229 expects. -/
theorem claim1_counterexample :
    underloadRun.map updatesOf = [[], [⟨10, 1⟩], [⟨5, 1⟩]] ∧
    (envDrain.remote 4).map (fun resp => resp.status.backlogCountHint) =
      some 1 ∧
    cfgOf envDrain = ⟨10, 1⟩ := by decide

/-- **C2** (counterexample).  The claim asserts that from `R = W = 2` with
sustained `totalQPS = 190` the scaler gates a `DownscaleWrite` to `W = 1`
and issues `update(R = 2, W = 1)`.  Running the `overload but no
fluctuation` scenario, the only update ever issued is the tick-2 upscale to
`(2, 2)`; ticks 3 and 4 observe QPS 190 at `W = 2` and issue nothing, as
the test at lines 231-258 expects. -/
theorem claim2_counterexample :
    mildRun.map updatesOf = [[], [⟨2, 2⟩], [], []] := by decide

/-- **C2** (amended).  At `W = 2` with QPS 190 the downscale target
`⌈190 / (200 × 0.75)⌉ = 2` is not strictly below `W`, so the policy engine
proposes no `DownscaleWrite` (it answers no-op), nothing is gated, and no
update is issued on ticks 3 and 4: the configuration stays `R = W = 2`. -/
theorem claim2_no_downscale_at_190 :
    calcDecision ⟨2, 2⟩ ⟨190, []⟩ testTunables = ⟨2, 2, Reason.noOp⟩ ∧
    downTarget ⟨190, []⟩ testTunables = 2 ∧
    mildRun.map (fun r => r.gate.pending) =
      [some ⟨2, 2, Reason.upscale⟩, none, none, none] ∧
    mildRun.map (fun r => r.admitted) =
      [none, some ⟨2, 2, Reason.upscale⟩, none, none] := by decide

/-- **C5** (counterexample).  The claim asserts that a retired partition
whose describe still reports it as a write partition but whose backlog is 0
counts as drained and does not block the read shrink.  In the `underload
sustained` scenario, partition 9 answers with backlog 0 but a self-view of
10 write partitions: changing only that self-view (to 1 write partition)
changes the tick's outcome from "no read shrink" to "shrink to `R = 9`", so
the zero-backlog writer-view partition does block the shrink. -/
theorem claim5_counterexample :
    (respQPS 10 0).status.backlogCountHint = 0 ∧
    (tick testTunables tickStep envUnderload gateUnderload).drainUpdate =
      none ∧
    (tick testTunables tickStep envUnderloadAcked gateUnderload).drainUpdate =
      some ⟨9, 1⟩ := by decide

/-- **C5** (amended).  During the drain check, a retired partition counts as
drained exactly when its describe succeeded, its backlog is 0, *and* its
self-reported configuration no longer lists it as a write partition; a
zero-backlog partition still reporting itself a writer blocks the read
shrink at its index: tick 2 of `underload sustained` issues only the write
downscale `update(R = 10, W = 1)`, while the acknowledged variant also
issues the read shrink down to partition 9. -/
theorem claim5_drained_rule :
    (∀ (i : Nat) (resp : DescribeResponse),
      isDrained i (some resp) = true ↔
        (resp.status.backlogCountHint = 0 ∧ resp.config.write ≤ i)) ∧
    (∀ i : Nat, isDrained i none = false) ∧
    updatesOf (tick testTunables tickStep envUnderload gateUnderload) =
      [⟨10, 1⟩] ∧
    updatesOf (tick testTunables tickStep envUnderloadAcked gateUnderload) =
      [⟨10, 1⟩, ⟨9, 1⟩] := by
  refine ⟨?_, fun i => rfl, by decide, by decide⟩
  intro i resp
  show (if resp.status.backlogCountHint = 0 ∧ resp.config.write ≤ i then
      true else false) = true ↔ _
  split
  · next h => simp [h]
  · next h => simp [h]

/-- **C7**.  With isolation enabled, the aggregate QPS is the sum of every
partition's report: from `R = W = 2` with partitions reporting QPS 1 and
400, the aggregate is 401, the upscale target is `⌈401/200⌉ = 3`, and after
the sustain period the scaler issues one `update(R = 3, W = 3)`, as the
test at lines 260-286 expects. -/
theorem claim7_isolation_sum_upscale :
    isoAgg envIsoUp = ⟨401, []⟩ ∧
    natCeilDiv 401 200 = 3 ∧
    isoUpRun.map updatesOf = [[], [⟨3, 3⟩]] ∧
    isoUpRun.map (fun r => r.gate.pending) =
      [some ⟨3, 3, Reason.upscale⟩, none] := by decide

/-- **C1** (amended).  When a partition in `[W..R-1]` reports nonzero
backlog or fails its describe, an update reducing `R` may still be issued,
but it removes only partitions observed drained this tick (successful
describe, zero backlog, self-view no longer a writer): every partition the
update drops from the read set was drained, and the new read count never
falls below the write count.  In particular no partition with backlog, and
no partition whose describe failed, ever leaves the read set. -/
theorem claim1_read_shrink_only_drained (t : Tunables) (now : ℚ)
    (env : TickEnv) (g : GateState) (h1 : wfConfigOpt env.config = true)
    (h2 : 1 ≤ t.maxPartitions) :
    ∀ u ∈ updatesOf (tick t now env g), u.read < (cfgOf env).read →
      u.write ≤ u.read ∧
      ∀ i, u.read ≤ i → i < (cfgOf env).read →
        isDrained i (tickView env i) = true := by
  intro u hu hshrink
  rw [updatesOf_tick] at hu
  obtain ⟨hwf1, hwf2⟩ := wfConfigOpt_spec env h1
  rcases tick_shape t now env g with h | h | h <;> rw [h] at hu
  · exact absurd hu (by simp [errResult])
  · exact afterAgg_read_shrink t now g env (cfgOf env) (isoAgg env) hwf1 hwf2
      h2 u hu hshrink
  · exact afterAgg_read_shrink t now g env (cfgOf env) (localAgg env) hwf1
      hwf2 h2 u hu hshrink

/-- **C1** (witness).  The amended theorem applied to tick 3 of `underload
sustained then drain`: the update `(R = 5, W = 1)` keeps the write
partition in the read set and drops only partitions 5..9, all observed
drained. -/
theorem claim1_witness :
    wfConfigOpt envDrain.config = true ∧ 1 ≤ testTunables.maxPartitions ∧
    ∀ u ∈ updatesOf (tick testTunables 0 envDrain gateInit),
      u.read < (cfgOf envDrain).read →
      u.write ≤ u.read ∧
      ∀ i, u.read ≤ i → i < (cfgOf envDrain).read →
        isDrained i (tickView envDrain i) = true :=
  ⟨by decide, by decide,
    claim1_read_shrink_only_drained testTunables 0 envDrain gateInit
      (by decide) (by decide)⟩

/-- **C4** (counterexample).  The claim asserts that every admitted
downscale, `DownscaleRead` included, has been the gate's pending decision
for at least the downscale sustain before it is committed, and that no
downscale commits in the tick it is first proposed.  In `underload
sustained then drain`, after tick 2 the gate is empty, yet tick 3 both
discovers the drained suffix and immediately issues the read-shrinking
`update(R = 5, W = 1)`: a downscale committed in the very tick it first
arose, never having been pending. -/
theorem claim4_counterexample :
    underloadRun.map (fun r => r.gate.pending) =
      [some ⟨10, 1, Reason.downscaleWrite⟩, none, none] ∧
    underloadRun.map (fun r => r.admitted) =
      [none, some ⟨10, 1, Reason.downscaleWrite⟩, none] ∧
    underloadRun.map (fun r => r.drainUpdate) =
      [none, none, some ⟨5, 1⟩] := by decide

/-- **C4** (amended).  Gate-admitted decisions — `DownscaleWrite` among
them — are committed only after being the pending decision for at least
their sustain duration: whenever a tick admits a `DownscaleWrite`, that
decision was already pending at the start of the tick and its downscale
sustain had elapsed.  The drain-driven read shrink, by contrast, bypasses
the gate and commits in the tick its drain check passes (see the
counterexample). -/
theorem claim4_write_downscale_gated (t : Tunables) (now : ℚ)
    (env : TickEnv) (g : GateState) (d : Decision)
    (h : (tick t now env g).admitted = some d)
    (hr : d.reason = Reason.downscaleWrite) :
    g.pending = some d ∧ t.downscaleSustained ≤ now - g.since := by
  rcases tick_shape t now env g with hs | hs | hs <;> rw [hs] at h
  · exact absurd h (by simp [errResult])
  · obtain ⟨hdc, hp, hsus⟩ :=
      gateStep_some t now g (calcDecision (cfgOf env) (isoAgg env) t) d h
    subst hdc
    refine ⟨hp, ?_⟩
    rw [hr] at hsus
    simpa [sustainOf] using hsus
  · obtain ⟨hdc, hp, hsus⟩ :=
      gateStep_some t now g (calcDecision (cfgOf env) (localAgg env) t) d h
    subst hdc
    refine ⟨hp, ?_⟩
    rw [hr] at hsus
    simpa [sustainOf] using hsus

/-- **C4** (witness).  The amended theorem applied to tick 2 of `underload
sustained`: the committed `DownscaleWrite` to `(10, 1)` was pending since
instant 0 and the tick runs at `1s + 1ms ≥ 1s`. -/
theorem claim4_witness :
    (tick testTunables tickStep envUnderload gateUnderload).admitted =
      some ⟨10, 1, Reason.downscaleWrite⟩ ∧
    gateUnderload.pending = some ⟨10, 1, Reason.downscaleWrite⟩ ∧
    testTunables.downscaleSustained ≤ tickStep - gateUnderload.since :=
  ⟨by decide,
    (claim4_write_downscale_gated testTunables tickStep envUnderload
      gateUnderload ⟨10, 1, Reason.downscaleWrite⟩ (by decide) rfl).1,
    (claim4_write_downscale_gated testTunables tickStep envUnderload
      gateUnderload ⟨10, 1, Reason.downscaleWrite⟩ (by decide) rfl).2⟩

/-- **C6**.  Every configuration a tick passes to
`updateTaskListPartitionConfig` satisfies `R ≥ W ≥ 1`, provided the
manager's current configuration is well-formed (or absent) and at least one
partition is allowed. -/
theorem claim6_update_invariant (t : Tunables) (now : ℚ) (env : TickEnv)
    (g : GateState) (h1 : wfConfigOpt env.config = true)
    (h2 : 1 ≤ t.maxPartitions) :
    ∀ u ∈ updatesOf (tick t now env g), 1 ≤ u.write ∧ u.write ≤ u.read := by
  intro u hu
  rw [updatesOf_tick] at hu
  obtain ⟨hwf1, hwf2⟩ := wfConfigOpt_spec env h1
  rcases tick_shape t now env g with h | h | h <;> rw [h] at hu
  · exact absurd hu (by simp [errResult])
  · exact afterAgg_updates_wf t now g env (cfgOf env) (isoAgg env) hwf1 hwf2
      h2 u hu
  · exact afterAgg_updates_wf t now g env (cfgOf env) (localAgg env) hwf1
      hwf2 h2 u hu

/-- **C6** (witness).  The invariant theorem applied to tick 2 of
`underload sustained`, whose update is `(R = 10, W = 1)`. -/
theorem claim6_witness :
    wfConfigOpt envUnderload.config = true ∧
    1 ≤ testTunables.maxPartitions ∧
    ∀ u ∈ updatesOf (tick testTunables tickStep envUnderload gateUnderload),
      1 ≤ u.write ∧ u.write ≤ u.read :=
  ⟨by decide, by decide,
    claim6_update_invariant testTunables tickStep envUnderload gateUnderload
      (by decide) (by decide)⟩

/-- **C8**.  With isolation enabled, a failed remote describe aborts the
tick: whatever decision was pending before the tick, the gate is cleared by
the end of it and no update is issued.  The commit can only happen after a
later error-free tick re-arms the gate and a further full sustain elapses:
in the `isolation - error` scenario the error tick and the re-arming tick
issue nothing, and only the third tick commits `update(R = 3, W = 1)`. -/
theorem claim8_error_clears_gate (t : Tunables) (now : ℚ) (env : TickEnv)
    (g : GateState) (hiso : t.isolationEnabled = true)
    (herr : (isoResponses env).any Option.isNone = true) :
    (tick t now env g).gate.pending = none ∧
      updatesOf (tick t now env g) = [] ∧
      isoErrRun.map (fun r => r.gate.pending) =
        [none, some ⟨3, 1, Reason.downscaleWrite⟩, none] ∧
      isoErrRun.map updatesOf = [[], [], [⟨3, 1⟩]] := by
  have h : tick t now env g = errResult g (isoCalls env) := by
    unfold tick
    rw [if_pos hiso, if_pos herr]
  rw [h]
  exact ⟨rfl, filterMap_callUpdate_base _, by decide, by decide⟩

/-- **C8** (witness).  The theorem applied to tick 1 of the `isolation -
error` scenario, started from a gate that already holds a pending decision:
the pending decision is cleared and nothing is updated. -/
theorem claim8_witness :
    isoTunables.isolationEnabled = true ∧
    (isoResponses envIsoErr).any Option.isNone = true ∧
    ((tick isoTunables 0 envIsoErr gateUnderload).gate.pending = none ∧
      updatesOf (tick isoTunables 0 envIsoErr gateUnderload) = [] ∧
      isoErrRun.map (fun r => r.gate.pending) =
        [none, some ⟨3, 1, Reason.downscaleWrite⟩, none] ∧
      isoErrRun.map updatesOf = [[], [], [⟨3, 1⟩]]) :=
  ⟨rfl, by decide,
    claim8_error_clears_gate isoTunables 0 envIsoErr gateUnderload rfl
      (by decide)⟩

/-- **C9**.  `Start` and `Stop` are idempotent total functions on the
lifecycle state — calling either twice, from any state reached after the
first `Start`, equals calling it once — and after a `Stop` following any
call sequence from the initial state, no background task is left running. -/
theorem claim9_lifecycle_idempotent (s : LifecycleState)
    (ops : List LifecycleOp) :
    scalerStart (scalerStart s) = scalerStart s ∧
    scalerStop (scalerStop s) = scalerStop s ∧
    (scalerStop (applyOps ops lifecycleInit)).taskRunning = false := by
  refine ⟨?_, ?_, ?_⟩
  · unfold scalerStart
    by_cases h : s.status = ScalerStatus.initialized
    · rw [if_pos h]
      rfl
    · rw [if_neg h, if_neg h]
  · unfold scalerStop
    by_cases h : s.status = ScalerStatus.started
    · rw [if_pos h]
      rfl
    · rw [if_neg h, if_neg h]
  · exact scalerStop_not_running _
      (applyOps_inv ops lifecycleInit (fun hc => by cases hc))

/-- **C10**.  In every tick — whatever the tunables, environment and gate
state — the scaler reads the manager's partition configuration exactly once
and performs the local `DescribeTaskList(true)` exactly once; the tick's
whole pipeline works from that single read (the tick function consumes
`env.config` through the one `cfgOf` value). -/
theorem claim10_single_reads (t : Tunables) (now : ℚ) (env : TickEnv)
    (g : GateState) :
    (tick t now env g).calls.count Call.readConfig = 1 ∧
    (tick t now env g).calls.count Call.localDescribe = 1 := by
  constructor
  · rw [tick_count_core t now env g Call.readConfig
      (fun i h => Call.noConfusion h) (fun u h => Call.noConfusion h)]
    decide
  · rw [tick_count_core t now env g Call.localDescribe
      (fun i h => Call.noConfusion h) (fun u h => Call.noConfusion h)]
    decide

/-- **C3**.  From a null configuration (treated as `R = W = 1`), a tick
observing `totalQPS = 300` produces a pending `Upscale(2, 2)` and issues no
update; a second tick any `dt ≥ 1s` later under the same load issues
exactly one update, `(R = 2, W = 2)`, as the test at lines 120-136
expects. -/
theorem claim3_upscale_after_sustain (dt : ℚ) (h : 1 ≤ dt) :
    updatesOf (tick testTunables 0 envOverload gateInit) = [] ∧
    (tick testTunables 0 envOverload gateInit).gate =
      ⟨some ⟨2, 2, Reason.upscale⟩, 0⟩ ∧
    updatesOf (tick testTunables dt envOverload
      ⟨some ⟨2, 2, Reason.upscale⟩, 0⟩) = [⟨2, 2⟩] := by
  refine ⟨by decide, by decide, ?_⟩
  have h0 : (1 : ℚ) ≤ dt - 0 := by simpa using h
  have hstep :
      decisionStep testTunables dt ⟨some ⟨2, 2, Reason.upscale⟩, 0⟩
        (cfgOf envOverload) (localAgg envOverload) =
        (some ⟨2, 2, Reason.upscale⟩, ⟨none, 0⟩) := by
    show (if (1 : ℚ) ≤ dt - 0 then
        ((some ⟨2, 2, Reason.upscale⟩ : Option Decision),
          (⟨none, 0⟩ : GateState))
      else (none, ⟨some ⟨2, 2, Reason.upscale⟩, 0⟩)) =
      (some ⟨2, 2, Reason.upscale⟩, ⟨none, 0⟩)
    rw [if_pos h0]
  rw [updatesOf_tick]
  show (admittedCfg testTunables dt ⟨some ⟨2, 2, Reason.upscale⟩, 0⟩
      (cfgOf envOverload) (localAgg envOverload)).toList ++
    (drainCfg testTunables dt ⟨some ⟨2, 2, Reason.upscale⟩, 0⟩ envOverload
      (cfgOf envOverload) (localAgg envOverload)).toList = [⟨2, 2⟩]
  unfold drainCfg scanOf cfgAfterStep admittedCfg
  rw [hstep]
  rfl

/-- **C3** (witness).  The theorem at the test's actual advance of
`1s + 1ms`. -/
theorem claim3_witness :
    (1 : ℚ) ≤ 1 + 1 / 1000 ∧
    (updatesOf (tick testTunables 0 envOverload gateInit) = [] ∧
      (tick testTunables 0 envOverload gateInit).gate =
        ⟨some ⟨2, 2, Reason.upscale⟩, 0⟩ ∧
      updatesOf (tick testTunables (1 + 1 / 1000) envOverload
        ⟨some ⟨2, 2, Reason.upscale⟩, 0⟩) = [⟨2, 2⟩]) :=
  ⟨by decide, claim3_upscale_after_sustain (1 + 1 / 1000) (by decide)⟩

end AdaptiveScaler
